import Mathlib

/-!
Verification of the presence-notification logic of `src/discord_bot.py`
(class `OnlineMemberTracker`).

Statuses, members, roles and guilds are modelled as Lean structures; the two
event handlers (`on_member_update`, `on_presence_update`), the DM fan-out
(`send_dm_notifications`) and the startup snapshot (`get_online_members`,
`on_ready`) are translated as pure functions.  The outcome of each outbound
`Member.send` call is supplied by an environment function
`deliver : Member → DeliveryOutcome` standing for the four ways the
`try`/`except` around the call can resolve: normal return,
`discord.Forbidden`, `discord.HTTPException`, or any other exception.

Each handler's early `return`s and its two transition branches become the
constructors of `HandlerAction`: an early return maps to `HandlerAction.NoAction` with the
reason the handler logs, the came-online branch (which calls
`send_dm_notifications`) maps to `HandlerAction.Notify`, and the went-offline branch
(which only logs) maps to `HandlerAction.LogOnly`.
-/

/-- Discord presence status as used by the bot (`discord.Status`). -/
inductive Status where
  | online
  | idle
  | dnd
  | offline
  | invisible
deriving DecidableEq

/-- Snapshot of a guild member at event time: id, display name, bot flag,
presence status, current activity (never consulted by the decision logic)
and the ids of the roles the member holds (`member.roles`).  Discord member
equality (`m != member` in the source) compares ids. -/
structure Member where
  id : Nat
  display_name : String
  bot : Bool
  status : Status
  activity : Option String
  roles : List Nat
deriving DecidableEq

/-- A guild role together with the members that hold it (`role.members`). -/
structure Role where
  id : Nat
  members : List Member
deriving DecidableEq

/-- A guild: id, member cache and role cache. -/
structure Guild where
  id : Nat
  members : List Member
  roles : List Role
deriving DecidableEq

/-- `guild.get_role(role_id)`: look a role up in the guild's role cache by id,
`None` when the role does not exist (e.g. it was deleted). -/
def Guild.get_role (g : Guild) (role_id : Nat) : Option Role :=
  g.roles.find? (fun r => r.id == role_id)

/-- Outcome of one `await notify_member.send(embed=embed)` call, i.e. which of
the four control paths of the surrounding `try`/`except` runs: normal return,
`except discord.Forbidden` (DMs disabled), `except discord.HTTPException`,
or `except Exception`. -/
inductive DeliveryOutcome where
  | Delivered
  | Forbidden
  | HTTPError
  | OtherError
deriving DecidableEq

/-- The tally the fan-out logs at the end:
`f"DM notification summary: successful_dms sent, failed_dms failed"`. -/
structure DeliveryReport where
  sent : Nat
  failed : Nat
deriving DecidableEq

/-- `members_to_notify = [m for m in target_role.members if m != member and not m.bot]`
(discord_bot.py line 268); member inequality is id inequality. -/
def members_to_notify (target_role : Role) (member : Member) : List Member :=
  target_role.members.filter (fun m => m.id != member.id && !m.bot)

/-- The `for notify_member in members_to_notify:` loop (lines 296-309):
one send attempt per recipient, `successful_dms += 1` on normal return and
`failed_dms += 1` in each of the three `except` branches.  The third
component records, in order, every member an outbound send was attempted
for. -/
def dm_loop (deliver : Member → DeliveryOutcome) :
    List Member → Nat → Nat → List Member → Nat × Nat × List Member
  | [], successful_dms, failed_dms, attempts =>
      (successful_dms, failed_dms, attempts)
  | notify_member :: rest, successful_dms, failed_dms, attempts =>
      match deliver notify_member with
      | DeliveryOutcome.Delivered =>
          dm_loop deliver rest (successful_dms + 1) failed_dms
            (attempts ++ [notify_member])
      | DeliveryOutcome.Forbidden =>
          dm_loop deliver rest successful_dms (failed_dms + 1)
            (attempts ++ [notify_member])
      | DeliveryOutcome.HTTPError =>
          dm_loop deliver rest successful_dms (failed_dms + 1)
            (attempts ++ [notify_member])
      | DeliveryOutcome.OtherError =>
          dm_loop deliver rest successful_dms (failed_dms + 1)
            (attempts ++ [notify_member])

/-- `send_dm_notifications(member, target_role)` (lines 262-314): compute the
recipient list, return early when it is empty (no outbound call is made),
otherwise run the delivery loop.  Returns the final tally together with the
list of members an outbound send was attempted for. -/
def send_dm_notifications (deliver : Member → DeliveryOutcome)
    (member : Member) (target_role : Role) : DeliveryReport × List Member :=
  if (members_to_notify target_role member).isEmpty then
    (DeliveryReport.mk 0 0, [])
  else
    let result := dm_loop deliver (members_to_notify target_role member) 0 0 []
    (DeliveryReport.mk result.1 result.2.1, result.2.2)

/-- The online test both handlers compute (lines 494-497 and 560-563):
`status != discord.Status.offline and status != discord.Status.invisible`. -/
def status_is_online (s : Status) : Bool :=
  s != Status.offline && s != Status.invisible

/-- Which control path of an event handler ran: an early `return` (with the
reason the handler logs), the came-online branch that fans out DMs, or the
went-offline branch that only logs. -/
inductive HandlerAction where
  | NoAction (reason : String)
  | Notify (member : Member) (target_role : Role)
  | LogOnly (msg : String)
deriving DecidableEq

/-- True exactly for the early-return paths. -/
def HandlerAction.isNoAction : HandlerAction → Bool
  | HandlerAction.NoAction _ => true
  | _ => false

/-- True exactly for the fan-out path. -/
def HandlerAction.isNotify : HandlerAction → Bool
  | HandlerAction.Notify _ _ => true
  | _ => false

/-- `on_member_update(before, after)` (lines 445-511), decision part:
skip when the status did not change (line 453), skip bots (line 458), skip
when no target role is set for the guild (line 469), skip when the stored
role id does not resolve (line 476, logged as a warning, then `return` —
no exception propagates), skip when the member lacks the role (line 482);
then fan out iff `not was_online and is_online`, log only iff
`was_online and not is_online`, otherwise do nothing.
`self.target_roles` is the per-guild dict, passed as an association list. -/
def on_member_update (target_roles : List (Nat × Nat)) (guild : Guild)
    (before after : Member) : HandlerAction :=
  if before.status = after.status then
    HandlerAction.NoAction "no status change"
  else if after.bot then
    HandlerAction.NoAction "bot excluded"
  else
    match List.lookup guild.id target_roles with
    | none => HandlerAction.NoAction "no target role set"
    | some target_role_id =>
        match guild.get_role target_role_id with
        | none => HandlerAction.NoAction "target role missing"
        | some target_role =>
            if !(after.roles.contains target_role.id) then
              HandlerAction.NoAction "member lacks target role"
            else if !(status_is_online before.status)
                && status_is_online after.status then
              HandlerAction.Notify after target_role
            else if status_is_online before.status
                && !(status_is_online after.status) then
              HandlerAction.LogOnly "went offline"
            else
              HandlerAction.NoAction "no transition"

/-- `on_presence_update(before, after)` (lines 513-577), decision part: the
same sequence of guards and branches as `on_member_update`, transcribed from
its own body (the two handlers duplicate the logic line for line; they differ
only in log text and in the exception clauses around the branch bodies). -/
def on_presence_update (target_roles : List (Nat × Nat)) (guild : Guild)
    (before after : Member) : HandlerAction :=
  if before.status = after.status then
    HandlerAction.NoAction "no status change"
  else if after.bot then
    HandlerAction.NoAction "bot excluded"
  else
    match List.lookup guild.id target_roles with
    | none => HandlerAction.NoAction "no target role set"
    | some target_role_id =>
        match guild.get_role target_role_id with
        | none => HandlerAction.NoAction "target role missing"
        | some target_role =>
            if !(after.roles.contains target_role.id) then
              HandlerAction.NoAction "member lacks target role"
            else if !(status_is_online before.status)
                && status_is_online after.status then
              HandlerAction.Notify after target_role
            else if status_is_online before.status
                && !(status_is_online after.status) then
              HandlerAction.LogOnly "went offline"
            else
              HandlerAction.NoAction "no transition"

/-- The outbound DM calls an action gives rise to: only the fan-out path
calls `send_dm_notifications` (lines 502 and 570); every other path sends
nothing. -/
def outbound_calls (deliver : Member → DeliveryOutcome) : HandlerAction → List Member
  | HandlerAction.Notify member target_role =>
      (send_dm_notifications deliver member target_role).2
  | _ => []

/-- `get_online_members(guild)` (lines 108-116): the non-bot members whose
status is neither `offline` nor `invisible`. -/
def get_online_members (g : Guild) : List Member :=
  g.members.filter (fun m =>
    !m.bot && m.status != Status.offline && m.status != Status.invisible)

/-- The per-guild startup snapshot from `on_ready` (lines 440-441):
`self.previous_online[guild.id] = {member.id for member in online_members}`. -/
def previous_online_init (g : Guild) : List Nat :=
  (get_online_members g).map (fun m => m.id)

/-- Modelled from the spec: the set the spec's invariant for
`PreviousOnlineSet` prescribes, `{ m.id : m in guild.members, status(m) in
(online, idle, dnd) }` — stated over all guild members, with no bot
exclusion. -/
def previous_online_spec_set (g : Guild) : List Nat :=
  (g.members.filter (fun m =>
    m.status == Status.online || m.status == Status.idle
      || m.status == Status.dnd)).map (fun m => m.id)

/-! ### Concrete scenario data (guild with target role R = u1, u2, u3) -/

/-- Member u1 of the target role, online snapshot. -/
def u1_online : Member := ⟨1, "u1", false, Status.online, none, [10]⟩

/-- Member u1, offline snapshot. -/
def u1_offline : Member := ⟨1, "u1", false, Status.offline, none, [10]⟩

/-- Member u1, idle snapshot. -/
def u1_idle : Member := ⟨1, "u1", false, Status.idle, none, [10]⟩

/-- Member u2 of the target role. -/
def u2_member : Member := ⟨2, "u2", false, Status.online, none, [10]⟩

/-- Member u3 of the target role. -/
def u3_member : Member := ⟨3, "u3", false, Status.dnd, none, [10]⟩

/-- A bot account that holds the target role and shows as online. -/
def bot_member : Member := ⟨4, "helper-bot", true, Status.online, none, [10]⟩

/-- The target role R with members u1, u2, u3. -/
def role_R : Role := ⟨10, [u1_online, u2_member, u3_member]⟩

/-- The target role with an extra bot holder. -/
def role_RB : Role := ⟨10, [u1_online, u2_member, u3_member, bot_member]⟩

/-- A role whose only holder is the triggering member itself. -/
def role_solo : Role := ⟨10, [u1_online]⟩

/-- The guild carrying role R. -/
def guild_G : Guild := ⟨100, [u1_online, u2_member, u3_member], [role_R]⟩

/-- A guild whose only member is an online bot. -/
def guild_bots : Guild := ⟨200, [bot_member], []⟩

/-- `self.target_roles` configured with role 10 for guild 100. -/
def tr_config : List (Nat × Nat) := [(100, 10)]

/-- Delivery environment of Scenario D: u2's DMs are closed
(`discord.Forbidden`), everyone else receives the DM. -/
def deliver_D (m : Member) : DeliveryOutcome :=
  if m.id == 2 then DeliveryOutcome.Forbidden else DeliveryOutcome.Delivered

/-! ### Helper lemmas -/

/-- The handlers' online test is false exactly on offline and invisible. -/
lemma status_is_online_false_iff (s : Status) :
    status_is_online s = false ↔ (s = Status.offline ∨ s = Status.invisible) := by
  cases s <;> simp [status_is_online]

/-- The handlers' online test is true exactly away from offline and invisible. -/
lemma status_is_online_true_iff (s : Status) :
    status_is_online s = true ↔ (s ≠ Status.offline ∧ s ≠ Status.invisible) := by
  cases s <;> simp [status_is_online]

/-- Being neither offline nor invisible is the same as being one of the three
online statuses. -/
lemma not_offline_iff (s : Status) :
    (s ≠ Status.offline ∧ s ≠ Status.invisible)
      ↔ (s = Status.online ∨ s = Status.idle ∨ s = Status.dnd) := by
  cases s <;> simp

/-- The delivery loop attempts a send for every recipient, in order,
whatever the delivery outcomes are. -/
lemma dm_loop_attempts (deliver : Member → DeliveryOutcome) :
    ∀ (l : List Member) (s f : Nat) (log : List Member),
      (dm_loop deliver l s f log).2.2 = log ++ l := by
  intro l
  induction l with
  | nil => intro s f log; simp [dm_loop]
  | cons m rest ih =>
      intro s f log
      cases h : deliver m <;> simp [dm_loop, h, ih]

/-- Each loop iteration increments exactly one of the two counters. -/
lemma dm_loop_tally (deliver : Member → DeliveryOutcome) :
    ∀ (l : List Member) (s f : Nat) (log : List Member),
      (dm_loop deliver l s f log).1 + (dm_loop deliver l s f log).2.1
        = s + f + l.length := by
  intro l
  induction l with
  | nil => intro s f log; simp [dm_loop]
  | cons m rest ih =>
      intro s f log
      cases h : deliver m <;> simp [dm_loop, h, ih] <;> omega

/-- The fan-out attempts one send per computed recipient (and none when the
recipient list is empty). -/
lemma send_dm_attempts (deliver : Member → DeliveryOutcome)
    (member : Member) (target_role : Role) :
    (send_dm_notifications deliver member target_role).2
      = members_to_notify target_role member := by
  unfold send_dm_notifications
  split
  · next h =>
      rw [List.isEmpty_iff] at h
      simp [h]
  · simp [dm_loop_attempts]

/-- The final tally accounts for every recipient exactly once. -/
lemma send_dm_tally (deliver : Member → DeliveryOutcome)
    (member : Member) (target_role : Role) :
    (send_dm_notifications deliver member target_role).1.sent
      + (send_dm_notifications deliver member target_role).1.failed
      = (members_to_notify target_role member).length := by
  unfold send_dm_notifications
  split
  · next h =>
      rw [List.isEmpty_iff] at h
      simp [h]
  · simpa using dm_loop_tally deliver (members_to_notify target_role member) 0 0 []

/-- The two handlers are the same decision function. -/
lemma handlers_agree (tr : List (Nat × Nat)) (g : Guild) (b a : Member) :
    on_presence_update tr g b a = on_member_update tr g b a := rfl

/-- Inversion: the fan-out branch runs only for the event's after-snapshot and
only on a not-online to online transition. -/
lemma on_member_update_notify_inv (tr : List (Nat × Nat)) (g : Guild)
    (b a m : Member) (r : Role)
    (h : on_member_update tr g b a = HandlerAction.Notify m r) :
    m = a ∧ status_is_online b.status = false
      ∧ status_is_online a.status = true := by
  unfold on_member_update at h
  repeat' split at h
  all_goals simp_all

/-- The fan-out branch runs when all guards pass and the transition is
not-online to online. -/
lemma on_member_update_notifies (tr : List (Nat × Nat)) (g : Guild)
    (b a : Member) (rid : Nat) (r : Role)
    (hlk : List.lookup g.id tr = some rid)
    (hrole : g.get_role rid = some r)
    (hmem : a.roles.contains r.id = true)
    (hbot : a.bot = false)
    (hwas : status_is_online b.status = false)
    (hnow : status_is_online a.status = true) :
    on_member_update tr g b a = HandlerAction.Notify a r := by
  have hne : b.status ≠ a.status := by
    intro he
    rw [he, hnow] at hwas
    exact Bool.noConfusion hwas
  have hmem2 : r.id ∈ a.roles := by simpa using hmem
  simp [on_member_update, hne, hbot, hlk, hrole, hmem2, hwas, hnow]

/-- The log-only branch runs when all guards pass and the transition is
online to not-online. -/
lemma on_member_update_log_only (tr : List (Nat × Nat)) (g : Guild)
    (b a : Member) (rid : Nat) (r : Role)
    (hlk : List.lookup g.id tr = some rid)
    (hrole : g.get_role rid = some r)
    (hmem : a.roles.contains r.id = true)
    (hbot : a.bot = false)
    (hwas : status_is_online b.status = true)
    (hnow : status_is_online a.status = false) :
    on_member_update tr g b a = HandlerAction.LogOnly "went offline" := by
  have hne : b.status ≠ a.status := by
    intro he
    rw [he, hnow] at hwas
    exact Bool.noConfusion hwas
  have hmem2 : r.id ∈ a.roles := by simpa using hmem
  simp [on_member_update, hne, hbot, hlk, hrole, hmem2, hwas, hnow]

/-- An early-return path sends nothing. -/
lemma outbound_nil_of_noaction (deliver : Member → DeliveryOutcome)
    (act : HandlerAction) (h : act.isNoAction = true) :
    outbound_calls deliver act = [] := by
  cases act <;> simp_all [HandlerAction.isNoAction, outbound_calls]

/-! ### Claims -/

/-- C1 counterexample: in Scenario D (recipients u2 and u3, u2's DMs closed
so its send raises `discord.Forbidden`, u3's send succeeds) the code tallies
`successful_dms = 1, failed_dms = 1` — the `except discord.Forbidden` branch
runs `failed_dms += 1` — so the report is not the claimed `sent 1, failed 0`. -/
theorem scenario_d_report_counterexample :
    (send_dm_notifications deliver_D u1_online role_R).1 = DeliveryReport.mk 1 1
      ∧ DeliveryReport.mk 1 1 ≠ DeliveryReport.mk 1 0
      ∧ members_to_notify role_R u1_online = [u2_member, u3_member]
      ∧ deliver_D u2_member = DeliveryOutcome.Forbidden
      ∧ deliver_D u3_member = DeliveryOutcome.Delivered := by
  decide

/-- C1 (amended): when one recipient's delivery raises `discord.Forbidden`
(DMs closed) and the other recipient's delivery succeeds, the report is
`sent = 1, failed = 1` — the blocked recipient is counted in `failed_dms`,
not in a separate suppressed tally — and the other recipient is still sent
the DM regardless of the blocked one's outcome. -/
theorem suppressed_counted_as_failed
    (deliver : Member → DeliveryOutcome) (member u2 u3 : Member) (r : Role)
    (hrec : members_to_notify r member = [u2, u3])
    (h2 : deliver u2 = DeliveryOutcome.Forbidden)
    (h3 : deliver u3 = DeliveryOutcome.Delivered) :
    (send_dm_notifications deliver member r).1 = DeliveryReport.mk 1 1
      ∧ u3 ∈ (send_dm_notifications deliver member r).2 := by
  simp [send_dm_notifications, hrec, dm_loop, h2, h3]

/-- Witness for C1 at Scenario D's concrete data. -/
theorem suppressed_counted_as_failed_witness :
    (send_dm_notifications deliver_D u1_online role_R).1 = DeliveryReport.mk 1 1
      ∧ u3_member ∈ (send_dm_notifications deliver_D u1_online role_R).2 :=
  suppressed_counted_as_failed deliver_D u1_online u2_member u3_member role_R
    (by decide) (by decide) (by decide)

/-- C2: when the status did not change, or the member is a bot, both handlers
take an early-return path — whatever the other fields of the snapshots are —
and no DM is sent. -/
theorem no_status_change_or_bot_noaction (tr : List (Nat × Nat)) (g : Guild)
    (b a : Member) (h : b.status = a.status ∨ a.bot = true) :
    (on_member_update tr g b a).isNoAction = true
      ∧ (on_presence_update tr g b a).isNoAction = true
      ∧ ∀ deliver : Member → DeliveryOutcome,
          outbound_calls deliver (on_member_update tr g b a) = []
            ∧ outbound_calls deliver (on_presence_update tr g b a) = [] := by
  have key : (on_member_update tr g b a).isNoAction = true := by
    rcases h with h | h
    · simp [on_member_update, h, HandlerAction.isNoAction]
    · by_cases hs : b.status = a.status
      · simp [on_member_update, hs, HandlerAction.isNoAction]
      · simp [on_member_update, hs, h, HandlerAction.isNoAction]
  refine ⟨key, by rw [handlers_agree]; exact key, fun deliver => ?_⟩
  rw [handlers_agree]
  exact ⟨outbound_nil_of_noaction deliver _ key,
    outbound_nil_of_noaction deliver _ key⟩

/-- Witness for C2: u1 stays online (an activity-only update). -/
theorem no_status_change_or_bot_noaction_witness :
    (on_member_update tr_config guild_G u1_online u1_online).isNoAction = true
      ∧ (on_presence_update tr_config guild_G u1_online u1_online).isNoAction
          = true
      ∧ ∀ deliver : Member → DeliveryOutcome,
          outbound_calls deliver
              (on_member_update tr_config guild_G u1_online u1_online) = []
            ∧ outbound_calls deliver
              (on_presence_update tr_config guild_G u1_online u1_online) = [] :=
  no_status_change_or_bot_noaction tr_config guild_G u1_online u1_online
    (Or.inl rfl)

/-- C3 counterexample: with target role R held by u1, u2, u3, member u1's
transition idle to online reaches the final else of the handler
(`was_online` is already true for idle), so no fan-out happens — contradicting
the claim's example that this event notifies u2 and u3. -/
theorem idle_to_online_no_notify_counterexample :
    on_member_update tr_config guild_G u1_idle u1_online
        = HandlerAction.NoAction "no transition"
      ∧ (on_member_update tr_config guild_G u1_idle u1_online).isNotify
          = false := by
  decide

/-- C3 (amended): for a non-bot member whose before-status is offline or
invisible, whose after-status is neither, and who holds the guild's resolved
target role, the handler triggers the fan-out to the role holders; the
recipient set is exactly the role's holders other than the member itself and
other than bots (so for R = u1, u2, u3 and u1 transitioning offline to
online the recipients are exactly u2 and u3). -/
theorem offline_to_online_notifies (tr : List (Nat × Nat)) (g : Guild)
    (b a : Member) (rid : Nat) (r : Role)
    (hb : b.status = Status.offline ∨ b.status = Status.invisible)
    (ha : a.status ≠ Status.offline ∧ a.status ≠ Status.invisible)
    (hbot : a.bot = false)
    (hlk : List.lookup g.id tr = some rid)
    (hrole : g.get_role rid = some r)
    (hmem : a.roles.contains r.id = true) :
    on_member_update tr g b a = HandlerAction.Notify a r
      ∧ ∀ m : Member, m ∈ members_to_notify r a
          ↔ (m ∈ r.members ∧ m.id ≠ a.id ∧ m.bot = false) := by
  constructor
  · exact on_member_update_notifies tr g b a rid r hlk hrole hmem hbot
      ((status_is_online_false_iff _).mpr hb)
      ((status_is_online_true_iff _).mpr ha)
  · intro m
    simp [members_to_notify, List.mem_filter, and_assoc]

/-- Witness for C3: u1 transitions offline to online in guild G and the
recipients are exactly u2 and u3. -/
theorem offline_to_online_notifies_witness :
    on_member_update tr_config guild_G u1_offline u1_online
        = HandlerAction.Notify u1_online role_R
      ∧ members_to_notify role_R u1_online = [u2_member, u3_member] :=
  ⟨(offline_to_online_notifies tr_config guild_G u1_offline u1_online 10 role_R
      (Or.inl rfl) (by decide) rfl rfl (by decide) (by decide)).1,
   by decide⟩

/-- C4: in both handlers the fan-out branch can run only on a transition from
the offline family (offline, invisible) into the online family; any
non-fan-out path makes zero outbound DM calls; and an online-to-offline
transition that passes all guards takes the log-only branch, which is not the
fan-out path.  Hence Offline to Online is the only transition with an
externally visible effect. -/
theorem notify_only_on_offline_to_online :
    (∀ (tr : List (Nat × Nat)) (g : Guild) (b a m : Member) (r : Role),
        on_member_update tr g b a = HandlerAction.Notify m r →
          (b.status = Status.offline ∨ b.status = Status.invisible)
            ∧ a.status ≠ Status.offline ∧ a.status ≠ Status.invisible)
    ∧ (∀ (tr : List (Nat × Nat)) (g : Guild) (b a m : Member) (r : Role),
        on_presence_update tr g b a = HandlerAction.Notify m r →
          (b.status = Status.offline ∨ b.status = Status.invisible)
            ∧ a.status ≠ Status.offline ∧ a.status ≠ Status.invisible)
    ∧ (∀ (deliver : Member → DeliveryOutcome) (act : HandlerAction),
        act.isNotify = false → outbound_calls deliver act = [])
    ∧ (∀ (tr : List (Nat × Nat)) (g : Guild) (b a : Member) (rid : Nat)
        (r : Role),
        List.lookup g.id tr = some rid → g.get_role rid = some r →
        a.roles.contains r.id = true → a.bot = false →
        status_is_online b.status = true → status_is_online a.status = false →
        on_member_update tr g b a = HandlerAction.LogOnly "went offline"
          ∧ (on_member_update tr g b a).isNotify = false) := by
  have inv : ∀ (tr : List (Nat × Nat)) (g : Guild) (b a m : Member) (r : Role),
      on_member_update tr g b a = HandlerAction.Notify m r →
        (b.status = Status.offline ∨ b.status = Status.invisible)
          ∧ a.status ≠ Status.offline ∧ a.status ≠ Status.invisible := by
    intro tr g b a m r h
    obtain ⟨-, hwas, hnow⟩ := on_member_update_notify_inv tr g b a m r h
    exact ⟨(status_is_online_false_iff _).mp hwas,
      (status_is_online_true_iff _).mp hnow⟩
  refine ⟨inv, ?_, ?_, ?_⟩
  · intro tr g b a m r h
    rw [handlers_agree] at h
    exact inv tr g b a m r h
  · intro deliver act h
    cases act <;> simp_all [HandlerAction.isNotify, outbound_calls]
  · intro tr g b a rid r hlk hrole hmem hbot hwas hnow
    have hlog := on_member_update_log_only tr g b a rid r hlk hrole hmem hbot
      hwas hnow
    exact ⟨hlog, by rw [hlog]; rfl⟩

/-- Witness for C4: the fan-out event offline to online of u1 satisfies the
status characterization, and u1's online to offline event in the same guild
takes the log-only branch. -/
theorem notify_only_on_offline_to_online_witness :
    ((u1_offline.status = Status.offline
        ∨ u1_offline.status = Status.invisible)
      ∧ u1_online.status ≠ Status.offline
      ∧ u1_online.status ≠ Status.invisible)
    ∧ on_member_update tr_config guild_G u1_online u1_offline
        = HandlerAction.LogOnly "went offline"
      ∧ (on_member_update tr_config guild_G u1_online u1_offline).isNotify
          = false :=
  ⟨notify_only_on_offline_to_online.1 tr_config guild_G u1_offline u1_online
      u1_online role_R (by decide),
   notify_only_on_offline_to_online.2.2.2 tr_config guild_G u1_online
      u1_offline 10 role_R (by decide) (by decide) (by decide) (by decide)
      (by decide) (by decide)⟩

/-- C5: when no target role is configured for the guild, and when a configured
role id does not resolve in the guild (e.g. the role was deleted), both
handlers take an early-return path for every event; in the unresolvable case
(statuses differing, non-bot, so the guard is actually reached) the path is
the one that logs the `Target role not found` warning and returns — no
exception propagates, the handler is total. -/
theorem missing_target_role_noaction :
    (∀ (tr : List (Nat × Nat)) (g : Guild) (b a : Member),
        List.lookup g.id tr = none →
        (on_member_update tr g b a).isNoAction = true
          ∧ (on_presence_update tr g b a).isNoAction = true)
    ∧ (∀ (tr : List (Nat × Nat)) (g : Guild) (b a : Member) (rid : Nat),
        List.lookup g.id tr = some rid → g.get_role rid = none →
        (on_member_update tr g b a).isNoAction = true
          ∧ (on_presence_update tr g b a).isNoAction = true
          ∧ (b.status ≠ a.status → a.bot = false →
              on_member_update tr g b a
                = HandlerAction.NoAction "target role missing")) := by
  constructor
  · intro tr g b a hlk
    have key : (on_member_update tr g b a).isNoAction = true := by
      simp only [on_member_update, hlk]
      repeat' split
      all_goals rfl
    exact ⟨key, by rw [handlers_agree]; exact key⟩
  · intro tr g b a rid hlk hrole
    have key : (on_member_update tr g b a).isNoAction = true := by
      simp only [on_member_update, hlk, hrole]
      repeat' split
      all_goals rfl
    refine ⟨key, by rw [handlers_agree]; exact key, fun hne hbot => ?_⟩
    simp [on_member_update, hne, hbot, hlk, hrole]

/-- Witness for C5: guild 200 has no configured role, and guild 100 with a
stale role id 99 cannot resolve it. -/
theorem missing_target_role_noaction_witness :
    ((on_member_update [] guild_bots u1_offline u1_online).isNoAction = true
      ∧ (on_presence_update [] guild_bots u1_offline u1_online).isNoAction
          = true)
    ∧ on_member_update [(100, 99)] guild_G u1_offline u1_online
        = HandlerAction.NoAction "target role missing" :=
  ⟨missing_target_role_noaction.1 [] guild_bots u1_offline u1_online rfl,
   (missing_target_role_noaction.2 [(100, 99)] guild_G u1_offline u1_online 99
      rfl rfl).2.2 (by decide) rfl⟩

/-- C6: every member an outbound DM is attempted for differs in id from the
member who came online and is not a bot, even when bots hold the target
role. -/
theorem recipients_exclude_trigger_and_bots
    (deliver : Member → DeliveryOutcome) (member : Member) (r : Role)
    (m : Member)
    (h : m ∈ (send_dm_notifications deliver member r).2) :
    m.id ≠ member.id ∧ m.bot = false := by
  rw [send_dm_attempts] at h
  simp only [members_to_notify, List.mem_filter, Bool.and_eq_true,
    bne_iff_ne, Bool.not_eq_true'] at h
  exact h.2

/-- Witness for C6: with the bot-holding role, u2 is a recipient while the
trigger u1 and the bot are not attempted at all. -/
theorem recipients_exclude_trigger_and_bots_witness :
    (u2_member.id ≠ u1_online.id ∧ u2_member.bot = false)
      ∧ bot_member ∉ (send_dm_notifications deliver_D u1_online role_RB).2
      ∧ u1_online ∉ (send_dm_notifications deliver_D u1_online role_RB).2 :=
  ⟨recipients_exclude_trigger_and_bots deliver_D u1_online role_RB u2_member
      (by decide),
   by decide, by decide⟩

/-- C7: the list of attempted sends equals the computed recipient list — one
attempt per recipient, in order — and does not depend on the delivery
outcomes, so no recipient's failure prevents or aborts the attempts to the
others; when the recipient list is empty the fan-out returns the zero report
having made no outbound call. -/
theorem fan_out_independent_attempts :
    (∀ (deliver : Member → DeliveryOutcome) (member : Member) (r : Role),
        (send_dm_notifications deliver member r).2 = members_to_notify r member)
    ∧ (∀ (deliver deliver2 : Member → DeliveryOutcome) (member : Member)
        (r : Role),
        (send_dm_notifications deliver member r).2
          = (send_dm_notifications deliver2 member r).2)
    ∧ (∀ (deliver : Member → DeliveryOutcome) (member : Member) (r : Role),
        members_to_notify r member = [] →
        send_dm_notifications deliver member r = (DeliveryReport.mk 0 0, [])) := by
  refine ⟨send_dm_attempts, ?_, ?_⟩
  · intro d d2 member r
    rw [send_dm_attempts, send_dm_attempts]
  · intro d member r h
    simp [send_dm_notifications, h]

/-- Witness for C7: a role held only by the triggering member short-circuits
with the zero report and an empty attempt list. -/
theorem fan_out_independent_attempts_witness :
    (send_dm_notifications deliver_D u1_online role_solo).2
        = members_to_notify role_solo u1_online
      ∧ send_dm_notifications deliver_D u1_online role_solo
        = (DeliveryReport.mk 0 0, []) :=
  ⟨fan_out_independent_attempts.1 deliver_D u1_online role_solo,
   fan_out_independent_attempts.2.2 deliver_D u1_online role_solo (by decide)⟩

/-- C8 counterexample: in a guild whose only member is an online bot, the
spec's formula contains the bot's id while the startup snapshot computed via
`get_online_members` — whose filter begins with `not member.bot` — does not. -/
theorem previous_online_spec_counterexample :
    bot_member.id ∈ previous_online_spec_set guild_bots
      ∧ bot_member.id ∉ previous_online_init guild_bots := by
  decide

/-- C8 (amended): the per-guild startup snapshot contains exactly the ids of
the guild's non-bot members whose status at observation time is online, idle
or dnd. -/
theorem previous_online_init_members (g : Guild) (x : Nat) :
    x ∈ previous_online_init g
      ↔ ∃ m : Member, m ∈ g.members ∧ m.id = x ∧ m.bot = false
          ∧ (m.status = Status.online ∨ m.status = Status.idle
              ∨ m.status = Status.dnd) := by
  simp only [previous_online_init, get_online_members, List.mem_map,
    List.mem_filter, Bool.and_eq_true, bne_iff_ne, Bool.not_eq_true']
  constructor
  · rintro ⟨m, ⟨hm, ⟨hbot, hoff⟩, hinv⟩, rfl⟩
    exact ⟨m, hm, rfl, hbot, (not_offline_iff m.status).mp ⟨hoff, hinv⟩⟩
  · rintro ⟨m, hm, rfl, hbot, hst⟩
    obtain ⟨hoff, hinv⟩ := (not_offline_iff m.status).mpr hst
    exact ⟨m, ⟨hm, ⟨hbot, hoff⟩, hinv⟩, rfl⟩

/-- C9: the fan-out's final tally satisfies
`successful_dms + failed_dms = number of recipients` — every recipient is
counted exactly once, as delivered or as failed. -/
theorem delivery_report_tally (deliver : Member → DeliveryOutcome)
    (member : Member) (r : Role) :
    (send_dm_notifications deliver member r).1.sent
      + (send_dm_notifications deliver member r).1.failed
      = (members_to_notify r member).length :=
  send_dm_tally deliver member r

/-- C10: the two event handlers implement the same decision function: for
every configuration, guild and pair of member snapshots they reach the same
decision (and hence trigger the same fan-out, log-only or early return). -/
theorem handlers_equivalent (tr : List (Nat × Nat)) (g : Guild)
    (b a : Member) :
    on_member_update tr g b a = on_presence_update tr g b a :=
  (handlers_agree tr g b a).symm
